import Mathlib

/-!
Verification development for the MetaVibe orchestration core.

Shallow embedding of `src/types.ts`, `src/services/geminiService.ts` and the
orchestration logic of `src/App.tsx`. External asynchronous calls (the Gemini
capability provider, the browser environment) are modelled by environment
records supplying each call's outcome: `Except JsError α` models a promise
that either resolves (`.ok`) or rejects (`.error`). JavaScript error values
are modelled as a normalized record `JsError` carrying the fields the code
inspects (`message`, `status`, `code`) plus its `JSON.stringify` serialization.
-/

namespace MetaVibe

/-! ## Data model (`src/types.ts`) -/

structure Colors where
  primary : String
  secondary : String
  accent : String
deriving DecidableEq

structure PersonalityVector where
  traits : List String
  energy : Nat
  mood : String
  colors : Colors
deriving DecidableEq

structure MusicDescription where
  genre : String
  bpm : Nat
  instruments : List String
  vibe : String
deriving DecidableEq

structure GeneratedAssets where
  artPrompt : String
  artBase64 : Option String
  storyText : String
  musicDescription : MusicDescription
  videoUri : Option String
  audioBase64 : Option String
deriving DecidableEq

inductive AppState where
  | IDLE
  | RECORDING
  | ANALYZING
  | GENERATING_ASSETS
  | SHOWCASE
  | ERROR
deriving DecidableEq

structure ArtSpec where
  prompt : String
  style : String
deriving DecidableEq

structure StorySpec where
  narrative : String
deriving DecidableEq

structure VideoSpec where
  prompt : String
deriving DecidableEq

/-- `tts` sub-payload of the analyzer response. The source also carries a
floating-point `speaking_rate`, unused by the orchestration; it is omitted. -/
structure TtsSpec where
  voice_name : String
  pitch : String
deriving DecidableEq

structure AnalyzerResponse where
  personality : PersonalityVector
  music : MusicDescription
  art : ArtSpec
  story : StorySpec
  video : VideoSpec
  tts : TtsSpec
deriving DecidableEq

/-! ## JavaScript error values and helpers -/

/-- Normalized JS error value: the fields the code inspects, plus the
result of `JSON.stringify` on it. -/
structure JsError where
  message : Option String
  status : Option String
  code : Option Nat
  serialized : String
deriving DecidableEq

/-- An error thrown by the code itself via `throw new Error(msg)`:
`JSON.stringify` of a plain `Error` is `"{}"`. -/
def throwErr (msg : String) : JsError := ⟨some msg, none, none, "\x7b\x7d"⟩

/-- JS `||` on a possibly-missing string (empty string is falsy). -/
def jsOr (m : Option String) (d : String) : String :=
  match m with
  | some s => if s = "" then d else s
  | none => d

/-- Whether the first list is a leading segment of the second. -/
def leadsList : List Char → List Char → Bool
  | [], _ => true
  | _ :: _, [] => false
  | a :: as, b :: bs => a == b && leadsList as bs

/-- Whether the needle occurs inside the haystack, at any position. -/
def occursIn (needle : List Char) : List Char → Bool
  | [] => needle.isEmpty
  | b :: bs => leadsList needle (b :: bs) || occursIn needle bs

/-- JS `hay.includes(needle)`: substring occurrence test. -/
def strContains (hay needle : String) : Bool :=
  occursIn needle.toList hay.toList

def isErr {α : Type} : Except JsError α → Bool
  | .error _ => true
  | .ok _ => false

/-! ## `geminiService.ts`: image generation (`generateArt`) -/

/-- One part of a generation response; `inlineData` carries base64 data. -/
structure Part where
  inlineData : Option String
deriving DecidableEq

/-- The relevant shape of `response.candidates?.[0]?.content?.parts`;
a missing chain is modelled as the empty part list. -/
structure GenResponse where
  parts : List Part
deriving DecidableEq

/-- `response.candidates?.[0]?.content?.parts?.find(p => p.inlineData)`. -/
def findImagePart (r : GenResponse) : Option String :=
  match r.parts.find? (fun p => p.inlineData.isSome) with
  | some p => p.inlineData
  | none => none

/-- A generateContent image request as issued by `generateArt`. -/
structure ImageRequest where
  model : String
  prompt : String
  aspectRatio : String
  imageSize : Option String
deriving DecidableEq

def primaryRequest (prompt : String) : ImageRequest :=
  ⟨"gemini-3-pro-image-preview", prompt, "1:1", some "1K"⟩

def fallbackRequest (prompt : String) : ImageRequest :=
  ⟨"gemini-2.5-flash-image", prompt, "1:1", none⟩

/-- Environment for one `generateArt` call: the outcome of the primary-model
request and of the fallback-model request. -/
structure ArtEnv where
  primary : Except JsError GenResponse
  fallback : Except JsError GenResponse

/-- An image-model attempt fails when the request rejects or the response
carries no inline image data. -/
def attemptFailed (resp : Except JsError GenResponse) : Bool :=
  match resp with
  | .error _ => true
  | .ok r => (findImagePart r).isNone

/-- `generateArt` from `geminiService.ts`: try the high-fidelity model; on any
failure of that attempt (rejection, or no image payload — which the source
turns into a thrown error inside the `try`) issue one fallback request to the
lower-fidelity model with the same prompt; the fallback's own failure
propagates. Returns the result together with the list of requests issued. -/
def generateArt (prompt : String) (env : ArtEnv) :
    Except JsError String × List ImageRequest :=
  let primaryResult : Except JsError String :=
    match env.primary with
    | .error e => .error e
    | .ok r =>
      match findImagePart r with
      | some d => .ok d
      | none => .error (throwErr "No image data found in response")
  match primaryResult with
  | .ok d => (.ok d, [primaryRequest prompt])
  | .error _ =>
    match env.fallback with
    | .error e => (.error e, [primaryRequest prompt, fallbackRequest prompt])
    | .ok r =>
      match findImagePart r with
      | some d => (.ok d, [primaryRequest prompt, fallbackRequest prompt])
      | none => (.error (throwErr "Image generation failed"),
                 [primaryRequest prompt, fallbackRequest prompt])

/-! ## `geminiService.ts`: speech generation (`generateSpeech`) -/

/-- `generateSpeech`: one TTS request; its environment-supplied outcome is the
rejection or the optional `candidates?.[0]?.content?.parts?.[0]?.inlineData?.data`
field of the response. A resolved response with no audio payload becomes a
thrown "TTS generation failed" error. `text` and `voiceName` parametrize the
request itself and do not affect the outcome shape. -/
def generateSpeech (text voiceName : String)
    (env : Except JsError (Option String)) : Except JsError String :=
  match env with
  | .error e => .error e
  | .ok (some b) => .ok b
  | .ok none => .error (throwErr "TTS generation failed")

/-! ## `geminiService.ts`: video generation (`generateVideo`) -/

/-- A long-running video operation as returned by submission or polling:
its `done` flag and (for the terminal operation)
`response?.generatedVideos?.[0]?.video?.uri`. -/
structure VideoOp where
  done : Bool
  uri : Option String
deriving DecidableEq

/-- Environment of one `runGen` attempt: `process.env.API_KEY` as read by this
attempt's fresh client, the outcome of `generateVideos` (submission), and the
successive outcomes of `operations.getVideosOperation` (polling). -/
structure RunGenEnv where
  apiKey : String
  submit : Except JsError VideoOp
  polls : List (Except JsError VideoOp)

/-- Terminal extraction: append the access key to the reference when present
(`return videoUri + "&key=" + process.env.API_KEY`), else `null`. -/
def finishVideo (apiKey : String) (op : VideoOp) : Option String :=
  match op.uri with
  | some u => some (u ++ "&key=" ++ apiKey)
  | none => none

/-- The `while (!operation.done)` poll loop. `none` models divergence: the
supplied poll outcomes are exhausted without a terminal operation (the source
loop would keep polling forever). -/
def pollLoop (apiKey : String) :
    VideoOp → List (Except JsError VideoOp) →
    Option (Except JsError (Option String))
  | op, polls =>
    if op.done then some (.ok (finishVideo apiKey op))
    else
      match polls with
      | [] => none
      | .error e :: _ => some (.error e)
      | .ok op2 :: rest => pollLoop apiKey op2 rest

/-- The inner `runGen` closure: submit the job, then poll until done. -/
def runGen (env : RunGenEnv) : Option (Except JsError (Option String)) :=
  match env.submit with
  | .error e => some (.error e)
  | .ok op => pollLoop env.apiKey op env.polls

/-- Permission-failure classification: `e.message?.includes(...) ||
JSON.stringify(e).includes(...) || e.status === "NOT_FOUND" || e.code === 404`. -/
def isNotFound (e : JsError) : Bool :=
  (match e.message with
   | some m => strContains m "Requested entity was not found"
   | none => false) ||
  strContains e.serialized "Requested entity was not found" ||
  e.status == some "NOT_FOUND" ||
  e.code == some 404

/-- Environment of a whole `generateVideo` call: the two possible `runGen`
attempts, whether `window.aistudio && window.aistudio.openSelectKey` is
available, and the outcome of `window.aistudio.openSelectKey()`. -/
structure VideoEnv where
  attempt1 : RunGenEnv
  attempt2 : RunGenEnv
  hasOpenSelectKey : Bool
  openSelectKey : Except JsError Unit

/-- Observable outcome of `generateVideo`: the resolved value (`none` when the
poll loop diverges; the `Except` layer records that the returned promise could
in principle reject), the number of interactive key-selection prompts shown,
the number of retries of the full submission-and-poll sequence, and the
prompts of the submissions issued. -/
structure VideoRun where
  result : Option (Except JsError (Option String))
  prompts : Nat
  retries : Nat
  submissions : List String

/-- `generateVideo` from `geminiService.ts`: one `runGen` attempt inside a
catch-all. On rejection, classify with `isNotFound`; for a permission-type
failure, when the environment exposes `openSelectKey`, prompt once and retry
`runGen` exactly once inside an inner catch-all returning `null`; every other
path resolves to `null`. -/
def generateVideo (prompt : String) (env : VideoEnv) : VideoRun :=
  match runGen env.attempt1 with
  | none => ⟨none, 0, 0, [prompt]⟩
  | some (.ok v) => ⟨some (.ok v), 0, 0, [prompt]⟩
  | some (.error e) =>
    if isNotFound e then
      if env.hasOpenSelectKey then
        match env.openSelectKey with
        | .error _ => ⟨some (.ok none), 1, 0, [prompt]⟩
        | .ok _ =>
          match runGen env.attempt2 with
          | none => ⟨none, 1, 1, [prompt, prompt]⟩
          | some (.ok v) => ⟨some (.ok v), 1, 1, [prompt, prompt]⟩
          | some (.error _) => ⟨some (.ok none), 1, 1, [prompt, prompt]⟩
      else ⟨some (.ok none), 0, 0, [prompt]⟩
    else ⟨some (.ok none), 0, 0, [prompt]⟩

/-! ## `App.tsx`: Session state and orchestration -/

/-- The Session snapshot published to the presentation layer: the React state
variables of `App` (`state`, `personality`, `assets`, `error`,
`statusMessage`). -/
structure Session where
  state : AppState
  personality : Option PersonalityVector
  assets : Option GeneratedAssets
  error : Option String
  statusMessage : String
deriving DecidableEq

/-- Initial state of `App`: `IDLE`, no personality/assets/error, status
message "Ready to vibe". -/
def initialSession : Session :=
  ⟨.IDLE, none, none, none, "Ready to vibe"⟩

def micErrorMessage : String :=
  "Microphone access denied or API Key missing. Please check permissions."

/-- Externally observable actions of `startRecording`, in order. -/
inductive Event where
  | checkHasKey
  | promptSelectKey
  | requestMic
  | recorderStart
deriving DecidableEq

/-- Environment of one `startRecording` call: availability and outcomes of
the `window.aistudio` capability and of `getUserMedia`. -/
structure StartEnv where
  hasHasSelectedApiKey : Bool
  hasSelectedApiKey : Except JsError Bool
  hasOpenSelectKey : Bool
  openSelectKey : Except JsError Unit
  getUserMedia : Except JsError Unit

/-- `checkApiKey` from `geminiService.ts`: when the environment exposes
`window.aistudio.hasSelectedApiKey`, await it; when it reports no key and
`openSelectKey` exists, await the interactive selection prompt. Returns the
call's outcome together with the events it performed, in order. -/
def checkApiKey (env : StartEnv) : Except JsError Unit × List Event :=
  if env.hasHasSelectedApiKey then
    match env.hasSelectedApiKey with
    | .error e => (.error e, [.checkHasKey])
    | .ok hasKey =>
      if !hasKey && env.hasOpenSelectKey then
        match env.openSelectKey with
        | .error e => (.error e, [.checkHasKey, .promptSelectKey])
        | .ok _ => (.ok (), [.checkHasKey, .promptSelectKey])
      else (.ok (), [.checkHasKey])
  else (.ok (), [])

/-- `startRecording` from `App.tsx`: await `checkApiKey`, then request the
microphone, then start the recorder and enter `RECORDING` clearing the error;
any rejection is caught and only sets the error message (the phase is not
touched). Returns the new session and the ordered event trace. -/
def startRecording (s : Session) (env : StartEnv) : Session × List Event :=
  match checkApiKey env with
  | (.error _, evs) => ({ s with error := some micErrorMessage }, evs)
  | (.ok _, evs) =>
    match env.getUserMedia with
    | .error _ =>
      ({ s with error := some micErrorMessage }, evs ++ [.requestMic])
    | .ok _ =>
      ({ s with state := .RECORDING, error := none },
       evs ++ [.requestMic, .recorderStart])

/-- Environment of one `handleRecordingStop` run: outcomes of the analysis
call, the two art-model requests, the TTS request, and the background video
task. -/
structure PipelineEnv where
  analysis : Except JsError AnalyzerResponse
  art : ArtEnv
  speech : Except JsError (Option String)
  video : VideoEnv

def genericFailureMessage : String := "Something went wrong during generation."

/-- Session snapshot at the moment the pipeline enters asset composition:
status message updated twice, personality published from the analysis,
phase `GENERATING_ASSETS`. -/
def composingSnapshot (s : Session) (a : AnalyzerResponse) : Session :=
  { s with statusMessage := "Generating multimodal experience...",
           personality := some a.personality,
           state := .GENERATING_ASSETS }

/-- `handleRecordingStop` from `App.tsx`: analyze, publish the personality,
enter `GENERATING_ASSETS`, run art and TTS concurrently (`Promise.all`),
publish the full asset record with `videoUri := none` and enter `SHOWCASE`,
then spawn the background video task; any rejection up to the barrier is
caught, setting the error message and phase `ERROR`. Returns the new session
and the spawned video task's run (`none` when no task was spawned). When both
art and speech fail the source surfaces whichever promise rejects first; this
embedding determinizes that race to the art error. -/
def handleRecordingStop (s : Session) (env : PipelineEnv) :
    Session × Option VideoRun :=
  let s1 := { s with statusMessage := "Extracting personality vector..." }
  match env.analysis with
  | .error e =>
    ({ s1 with error := some (jsOr e.message genericFailureMessage),
               state := .ERROR }, none)
  | .ok a =>
    let s3 := composingSnapshot s a
    match generateArt a.art.prompt env.art |>.1,
          generateSpeech a.story.narrative a.tts.voice_name env.speech with
    | .ok artBase64, .ok audioBase64 =>
      let initialAssets : GeneratedAssets :=
        { artPrompt := a.art.prompt,
          artBase64 := some artBase64,
          storyText := a.story.narrative,
          musicDescription := a.music,
          videoUri := none,
          audioBase64 := some audioBase64 }
      ({ s3 with assets := some initialAssets, state := .SHOWCASE },
       some (generateVideo a.video.prompt env.video))
    | .error e, _ =>
      ({ s3 with error := some (jsOr e.message genericFailureMessage),
                 state := .ERROR }, none)
    | _, .error e =>
      ({ s3 with error := some (jsOr e.message genericFailureMessage),
                 state := .ERROR }, none)

/-- The background video task's completion callback:
`if (uri) setAssets(prev => prev ? { ...prev, videoUri: uri } : null)` —
JS truthiness makes both `null` and the empty string skip the patch. -/
def applyVideoCallback (uri : Option String) (s : Session) : Session :=
  match uri with
  | none => s
  | some u =>
    if u = "" then s
    else
      { s with assets :=
          match s.assets with
          | some a => some { a with videoUri := some u }
          | none => none }

/-- Delivery of a spawned video task's completion: the callback fires exactly
when the task's promise resolves (`some (.ok v)`); a diverging task never
fires. -/
def fireVideoTask (run : VideoRun) (s : Session) : Session :=
  match run.result with
  | some (.ok v) => applyVideoCallback v s
  | _ => s

/-- `reset` from `App.tsx`: phase `IDLE`, personality/assets/error cleared.
The status message is not touched by the source. -/
def reset (s : Session) : Session :=
  { s with state := .IDLE, personality := none, assets := none, error := none }

/-! ## Concrete sample inputs -/

/-- A concrete analyzer response (the calm speaker of spec scenario A). -/
def sampleAnalysis : AnalyzerResponse :=
  { personality := { traits := ["Calm"], energy := 2, mood := "Serene",
                     colors := ⟨"#aabbcc", "#bbccdd", "#ccddee"⟩ },
    music := { genre := "lofi", bpm := 70, instruments := ["piano"], vibe := "calm" },
    art := { prompt := "A watercolor cottage in a misty forest", style := "watercolor" },
    story := { narrative := "You are calm." },
    video := { prompt := "slow pan over a misty forest" },
    tts := { voice_name := "Kore", pitch := "low" } }

/-- A video environment whose first submission immediately completes. -/
def videoDoneEnv (u : String) : VideoEnv :=
  { attempt1 := { apiKey := "KEY", submit := .ok ⟨true, some u⟩, polls := [] },
    attempt2 := { apiKey := "KEY", submit := .ok ⟨true, none⟩, polls := [] },
    hasOpenSelectKey := false,
    openSelectKey := .ok () }

/-- A video environment that never reaches a terminal operation (diverges). -/
def videoPendingEnv : VideoEnv :=
  { attempt1 := { apiKey := "KEY", submit := .ok ⟨false, none⟩, polls := [] },
    attempt2 := { apiKey := "KEY", submit := .ok ⟨false, none⟩, polls := [] },
    hasOpenSelectKey := false,
    openSelectKey := .ok () }

/-- An error carrying only the explicit NOT_FOUND status signal. -/
def notFoundStatusErr : JsError := ⟨none, some "NOT_FOUND", none, ""⟩

/-- First session run: analysis, art, speech and video all succeed. -/
def pipelineEnv1 : PipelineEnv :=
  { analysis := .ok sampleAnalysis,
    art := { primary := .ok ⟨[⟨some "ART1"⟩]⟩, fallback := .ok ⟨[]⟩ },
    speech := .ok (some "AUDIO1"),
    video := videoDoneEnv "vids.example/v1?id=1" }

/-- Second session run: art and speech succeed, video still pending. -/
def pipelineEnv2 : PipelineEnv :=
  { analysis := .ok sampleAnalysis,
    art := { primary := .ok ⟨[⟨some "ART2"⟩]⟩, fallback := .ok ⟨[]⟩ },
    speech := .ok (some "AUDIO2"),
    video := videoPendingEnv }

/-- A run whose speech call rejects (spec scenario B). -/
def pipelineEnvSpeechFail : PipelineEnv :=
  { analysis := .ok sampleAnalysis,
    art := { primary := .ok ⟨[⟨some "ART1"⟩]⟩, fallback := .ok ⟨[]⟩ },
    speech := .error (throwErr "TTS transport failure"),
    video := videoPendingEnv }

/-- Delivery of an optional spawned task: a session with no spawned task is
left untouched. -/
def deliverTask (t : Option VideoRun) (s : Session) : Session :=
  match t with
  | some run => fireVideoTask run s
  | none => s

def session1 : Session := (handleRecordingStop initialSession pipelineEnv1).1
def task1 : Option VideoRun := (handleRecordingStop initialSession pipelineEnv1).2
def session2 : Session := (handleRecordingStop (reset session1) pipelineEnv2).1

/-- The asset record published by the second session. -/
def sessionTwoAssets : GeneratedAssets :=
  { artPrompt := sampleAnalysis.art.prompt,
    artBase64 := some "ART2",
    storyText := sampleAnalysis.story.narrative,
    musicDescription := sampleAnalysis.music,
    videoUri := none,
    audioBase64 := some "AUDIO2" }

def failedSession : Session :=
  (handleRecordingStop initialSession pipelineEnvSpeechFail).1

/-! ## Helper lemmas -/

theorem isErr_generateArt (prompt : String) (env : ArtEnv) :
    isErr (generateArt prompt env).1 =
      (attemptFailed env.primary && attemptFailed env.fallback) := by
  unfold generateArt attemptFailed
  cases env.primary with
  | error e =>
    cases env.fallback with
    | error e2 => simp [isErr]
    | ok r =>
      cases h : findImagePart r with
      | none => simp [isErr, h]
      | some d => simp [isErr, h]
  | ok r =>
    cases h : findImagePart r with
    | none =>
      cases env.fallback with
      | error e2 => simp [isErr, h]
      | ok r2 =>
        cases h2 : findImagePart r2 with
        | none => simp [isErr, h, h2]
        | some d => simp [isErr, h, h2]
    | some d => simp [isErr, h]

theorem generateArt_requests (prompt : String) (env : ArtEnv) :
    (generateArt prompt env).2 =
      if attemptFailed env.primary then
        [primaryRequest prompt, fallbackRequest prompt]
      else [primaryRequest prompt] := by
  unfold generateArt attemptFailed
  cases env.primary with
  | error e =>
    cases env.fallback with
    | error e2 => simp
    | ok r =>
      cases h : findImagePart r with
      | none => simp [h]
      | some d => simp [h]
  | ok r =>
    cases h : findImagePart r with
    | none =>
      cases env.fallback with
      | error e2 => simp [h]
      | ok r2 =>
        cases h2 : findImagePart r2 with
        | none => simp [h, h2]
        | some d => simp [h, h2]
    | some d => simp [h, Option.isNone]

/-- Successful barrier: with a successful analysis, art and speech results,
`handleRecordingStop` publishes the full asset record, enters `SHOWCASE` and
spawns the video task. -/
theorem hrs_success_shape (s : Session) (env : PipelineEnv) (a : AnalyzerResponse)
    (hA : env.analysis = .ok a)
    (hArt : isErr (generateArt a.art.prompt env.art).1 = false)
    (hTts : isErr (generateSpeech a.story.narrative a.tts.voice_name env.speech) = false) :
    ∃ artB audioB,
      (generateArt a.art.prompt env.art).1 = .ok artB ∧
      generateSpeech a.story.narrative a.tts.voice_name env.speech = .ok audioB ∧
      handleRecordingStop s env =
        ({ composingSnapshot s a with
             assets := some { artPrompt := a.art.prompt, artBase64 := some artB,
                              storyText := a.story.narrative,
                              musicDescription := a.music,
                              videoUri := none, audioBase64 := some audioB },
             state := .SHOWCASE },
         some (generateVideo a.video.prompt env.video)) := by
  cases hArtE : (generateArt a.art.prompt env.art).1 with
  | error e => rw [hArtE] at hArt; simp [isErr] at hArt
  | ok artB =>
    cases hTtsE : generateSpeech a.story.narrative a.tts.voice_name env.speech with
    | error e => rw [hTtsE] at hTts; simp [isErr] at hTts
    | ok audioB =>
      refine ⟨artB, audioB, rfl, rfl, ?_⟩
      simp [handleRecordingStop, hA, hArtE, hTtsE]

/-- Failed barrier: with a successful analysis but a failing art (after both
tiers) or speech call, `handleRecordingStop` enters `ERROR` with some error
message, leaving the other fields at the composing-phase snapshot, and spawns
no video task. -/
theorem hrs_fail_shape (s : Session) (env : PipelineEnv) (a : AnalyzerResponse)
    (hA : env.analysis = .ok a)
    (hFail : isErr (generateArt a.art.prompt env.art).1 = true ∨
             isErr (generateSpeech a.story.narrative a.tts.voice_name env.speech) = true) :
    ∃ m, handleRecordingStop s env =
      ({ composingSnapshot s a with error := some m, state := .ERROR }, none) := by
  cases hArtE : (generateArt a.art.prompt env.art).1 with
  | error e =>
    exact ⟨jsOr e.message genericFailureMessage,
      by simp [handleRecordingStop, hA, hArtE]⟩
  | ok artB =>
    cases hTtsE : generateSpeech a.story.narrative a.tts.voice_name env.speech with
    | error e =>
      exact ⟨jsOr e.message genericFailureMessage,
        by simp [handleRecordingStop, hA, hArtE, hTtsE]⟩
    | ok audioB =>
      rw [hArtE] at hFail; rw [hTtsE] at hFail
      simp [isErr] at hFail

/-! ## Claim theorems -/

/-- C1: with a successful analysis and no previously published assets, the
pipeline enters `SHOWCASE` iff both the art call (after its two-tier fallback)
and the speech call succeed; if either fails the session enters `ERROR` and
the assets stay `null`; and whenever `SHOWCASE` is entered the published
record is complete — art and audio payloads present, video reference `null`,
never a partial record. -/
theorem c1_joint_barrier (s : Session) (env : PipelineEnv) (a : AnalyzerResponse)
    (hA : env.analysis = .ok a) (hAssets : s.assets = none) :
    ((handleRecordingStop s env).1.state = .SHOWCASE ↔
      (isErr (generateArt a.art.prompt env.art).1 = false ∧
       isErr (generateSpeech a.story.narrative a.tts.voice_name env.speech) = false)) ∧
    ((isErr (generateArt a.art.prompt env.art).1 = true ∨
      isErr (generateSpeech a.story.narrative a.tts.voice_name env.speech) = true) →
      (handleRecordingStop s env).1.state = .ERROR ∧
      (handleRecordingStop s env).1.assets = none) ∧
    ((handleRecordingStop s env).1.state = .SHOWCASE →
      ∃ A, (handleRecordingStop s env).1.assets = some A ∧
        A.artBase64.isSome = true ∧ A.audioBase64.isSome = true ∧
        A.videoUri = none) := by
  cases hArtB : isErr (generateArt a.art.prompt env.art).1 with
  | false =>
    cases hTtsB : isErr (generateSpeech a.story.narrative a.tts.voice_name env.speech) with
    | false =>
      obtain ⟨artB, audioB, hArtE, hTtsE, heq⟩ := hrs_success_shape s env a hA hArtB hTtsB
      refine ⟨by simp [heq], ?_, ?_⟩
      · rintro (h | h) <;> simp_all
      · intro _
        refine ⟨{ artPrompt := a.art.prompt, artBase64 := some artB,
                  storyText := a.story.narrative, musicDescription := a.music,
                  videoUri := none, audioBase64 := some audioB },
                by simp [heq], rfl, rfl, rfl⟩
    | true =>
      obtain ⟨m, heq⟩ := hrs_fail_shape s env a hA (Or.inr hTtsB)
      refine ⟨by simp [heq], ?_, ?_⟩
      · intro _
        simp [heq, composingSnapshot, hAssets]
      · simp [heq]
  | true =>
    obtain ⟨m, heq⟩ := hrs_fail_shape s env a hA (Or.inl hArtB)
    refine ⟨by simp [heq, hArtB], ?_, ?_⟩
    · intro _
      simp [heq, composingSnapshot, hAssets]
    · simp [heq]

/-- C1 witness: in the all-success sample run the session reaches `SHOWCASE`. -/
theorem c1_joint_barrier_witness :
    (handleRecordingStop initialSession pipelineEnv1).1.state = AppState.SHOWCASE :=
  ((c1_joint_barrier initialSession pipelineEnv1 sampleAnalysis rfl rfl).1).2 ⟨rfl, rfl⟩

/-- C2: on a successful run, the session enters `SHOWCASE` with the video
reference `null` at the moment of first publication; exactly one background
video task is spawned; delivering a task completion never changes the phase or
the error (so a background failure cannot regress the showcase); a task whose
promise resolves to `null` leaves the session untouched; and delivery is
idempotent, so the single spawned task patches the video reference at most
once. -/
theorem c2_video_patch (s : Session) (env : PipelineEnv) (a : AnalyzerResponse)
    (hA : env.analysis = .ok a)
    (hArt : isErr (generateArt a.art.prompt env.art).1 = false)
    (hTts : isErr (generateSpeech a.story.narrative a.tts.voice_name env.speech) = false) :
    (handleRecordingStop s env).1.state = .SHOWCASE ∧
    (∃ A, (handleRecordingStop s env).1.assets = some A ∧ A.videoUri = none) ∧
    (handleRecordingStop s env).2 = some (generateVideo a.video.prompt env.video) ∧
    (∀ run s2, (fireVideoTask run s2).state = s2.state ∧
               (fireVideoTask run s2).error = s2.error) ∧
    (∀ run s2, run.result = some (.ok none) → fireVideoTask run s2 = s2) ∧
    (∀ run s2, fireVideoTask run (fireVideoTask run s2) = fireVideoTask run s2) := by
  obtain ⟨artB, audioB, hArtE, hTtsE, heq⟩ := hrs_success_shape s env a hA hArt hTts
  refine ⟨by simp [heq],
          ⟨{ artPrompt := a.art.prompt, artBase64 := some artB,
             storyText := a.story.narrative, musicDescription := a.music,
             videoUri := none, audioBase64 := some audioB },
           by simp [heq], rfl⟩,
          by simp [heq], ?_, ?_, ?_⟩
  · intro run s2
    cases hr : run.result with
    | none => simp [fireVideoTask, hr]
    | some r =>
      cases r with
      | error e => simp [fireVideoTask, hr]
      | ok v =>
        cases v with
        | none => simp [fireVideoTask, hr, applyVideoCallback]
        | some u =>
          by_cases hu : u = "" <;>
            simp [fireVideoTask, hr, applyVideoCallback, hu]
  · intro run s2 hr
    simp [fireVideoTask, hr, applyVideoCallback]
  · intro run s2
    cases hr : run.result with
    | none => simp [fireVideoTask, hr]
    | some r =>
      cases r with
      | error e => simp [fireVideoTask, hr]
      | ok v =>
        cases v with
        | none => simp [fireVideoTask, hr, applyVideoCallback]
        | some u =>
          by_cases hu : u = ""
          · simp [fireVideoTask, hr, applyVideoCallback, hu]
          · cases hs : s2.assets with
            | none => simp [fireVideoTask, hr, applyVideoCallback, hu, hs]
            | some A => simp [fireVideoTask, hr, applyVideoCallback, hu, hs]

/-- C2 witness: the sample success run spawns exactly the video task of its
environment. -/
theorem c2_video_patch_witness :
    (handleRecordingStop initialSession pipelineEnv1).2 =
      some (generateVideo sampleAnalysis.video.prompt pipelineEnv1.video) :=
  (c2_video_patch initialSession pipelineEnv1 sampleAnalysis rfl rfl rfl).2.2.1

/-- C9: when the analysis succeeds and the speech call fails, the session
reaches `ERROR` with the analysis personality still published, assets still
`null`, and every field other than the phase and the error message equal to
the composing-phase snapshot. -/
theorem c9_speech_failure_frame (s : Session) (env : PipelineEnv) (a : AnalyzerResponse)
    (hA : env.analysis = .ok a)
    (hTts : isErr (generateSpeech a.story.narrative a.tts.voice_name env.speech) = true)
    (hAssets : s.assets = none) :
    ∃ m, (handleRecordingStop s env).1 =
        { composingSnapshot s a with state := .ERROR, error := some m } ∧
      (handleRecordingStop s env).1.state = .ERROR ∧
      (handleRecordingStop s env).1.personality = some a.personality ∧
      (handleRecordingStop s env).1.assets = none ∧
      (handleRecordingStop s env).1.statusMessage =
        "Generating multimodal experience..." := by
  obtain ⟨m, heq⟩ := hrs_fail_shape s env a hA (Or.inr hTts)
  exact ⟨m, by simp [heq], by simp [heq], by simp [heq, composingSnapshot],
         by simp [heq, composingSnapshot, hAssets], by simp [heq, composingSnapshot]⟩

/-- C9 witness: in the concrete speech-failure run the session fails while the
personality survives and the assets stay `null`. -/
theorem c9_speech_failure_frame_witness :
    (handleRecordingStop initialSession pipelineEnvSpeechFail).1.state = AppState.ERROR ∧
    (handleRecordingStop initialSession pipelineEnvSpeechFail).1.personality =
      some sampleAnalysis.personality ∧
    (handleRecordingStop initialSession pipelineEnvSpeechFail).1.assets = none := by
  obtain ⟨m, heq, h1, h2, h3, h4⟩ :=
    c9_speech_failure_frame initialSession pipelineEnvSpeechFail sampleAnalysis rfl rfl rfl
  exact ⟨h1, h2, h3⟩

/-- Art environment whose primary model fails and fallback succeeds. -/
def artFallbackEnv : ArtEnv :=
  { primary := .error (throwErr "primary model unavailable"),
    fallback := .ok ⟨[⟨some "FALLBACK_ART"⟩]⟩ }

/-- Pipeline run where art succeeds only through the fallback tier. -/
def pipelineEnvFallback : PipelineEnv :=
  { analysis := .ok sampleAnalysis,
    art := artFallbackEnv,
    speech := .ok (some "AUDIO1"),
    video := videoPendingEnv }

/-- C4: on any failure of the high-fidelity attempt (exception or missing
image payload) exactly one fallback request is issued, with the same prompt
and the same aspect ratio; an error is raised only when both tiers fail;
primary failure with fallback success yields a result; and in that case a run
whose speech call also succeeds still reaches `SHOWCASE`. -/
theorem c4_art_fallback (prompt : String) (env : ArtEnv)
    (s : Session) (penv : PipelineEnv) (a : AnalyzerResponse) :
    (attemptFailed env.primary = true →
      (generateArt prompt env).2 = [primaryRequest prompt, fallbackRequest prompt]) ∧
    ((primaryRequest prompt).prompt = prompt ∧
     (fallbackRequest prompt).prompt = prompt ∧
     (primaryRequest prompt).aspectRatio = (fallbackRequest prompt).aspectRatio) ∧
    (isErr (generateArt prompt env).1 = true →
      attemptFailed env.primary = true ∧ attemptFailed env.fallback = true) ∧
    (attemptFailed env.primary = true → attemptFailed env.fallback = false →
      isErr (generateArt prompt env).1 = false) ∧
    (penv.analysis = .ok a →
     attemptFailed penv.art.primary = true →
     isErr (generateArt a.art.prompt penv.art).1 = false →
     isErr (generateSpeech a.story.narrative a.tts.voice_name penv.speech) = false →
     (handleRecordingStop s penv).1.state = .SHOWCASE) := by
  refine ⟨?_, ⟨rfl, rfl, rfl⟩, ?_, ?_, ?_⟩
  · intro h
    rw [generateArt_requests, h]
    simp
  · intro h
    rw [isErr_generateArt] at h
    exact Bool.and_eq_true _ _ |>.mp h
  · intro h1 h2
    rw [isErr_generateArt, h1, h2]
    rfl
  · intro hA hPrim hArt hTts
    obtain ⟨artB, audioB, hArtE, hTtsE, heq⟩ := hrs_success_shape s penv a hA hArt hTts
    simp [heq]

/-- C4 witness: with a failing primary model and a working fallback, two
requests with the same prompt are issued, art succeeds, and the concrete
run still reaches `SHOWCASE`. -/
theorem c4_art_fallback_witness :
    (generateArt "p" artFallbackEnv).2 = [primaryRequest "p", fallbackRequest "p"] ∧
    isErr (generateArt "p" artFallbackEnv).1 = false ∧
    (handleRecordingStop initialSession pipelineEnvFallback).1.state =
      AppState.SHOWCASE :=
  ⟨(c4_art_fallback "p" artFallbackEnv initialSession pipelineEnvFallback
      sampleAnalysis).1 rfl,
   (c4_art_fallback "p" artFallbackEnv initialSession pipelineEnvFallback
      sampleAnalysis).2.2.2.1 rfl rfl,
   (c4_art_fallback "p" artFallbackEnv initialSession pipelineEnvFallback
      sampleAnalysis).2.2.2.2 rfl rfl rfl rfl⟩

/-- C10: `generateVideo` is total over its error outcomes — whenever the call
terminates, its promise resolves (`Except.ok`); it never propagates a
rejection to the caller's unguarded completion handler. -/
theorem c10_video_never_rejects (p : String) (env : VideoEnv) :
    (generateVideo p env).result = none ∨
    ∃ v, (generateVideo p env).result = some (Except.ok v) := by
  unfold generateVideo
  cases h1 : runGen env.attempt1 with
  | none => simp
  | some r =>
    cases r with
    | ok v => simp
    | error e =>
      by_cases hnf : isNotFound e
      · by_cases hcap : env.hasOpenSelectKey
        · cases hk : env.openSelectKey with
          | error e2 => simp [hnf, hcap, hk]
          | ok u =>
            cases h2 : runGen env.attempt2 with
            | none => simp [hnf, hcap, hk, h2]
            | some r2 => cases r2 <;> simp [hnf, hcap, hk, h2]
        · simp [hnf, hcap]
      · simp [hnf]

/-- Video env: permission failure, capability present, prompt resolves, retry
fails again. -/
def videoRetryEnv : VideoEnv :=
  { attempt1 := { apiKey := "K", submit := .error notFoundStatusErr, polls := [] },
    attempt2 := { apiKey := "K2", submit := .error (throwErr "still failing"), polls := [] },
    hasOpenSelectKey := true,
    openSelectKey := .ok () }

/-- Video env: permission failure but the environment does not expose the
interactive key-selection capability. -/
def videoNoCapabilityEnv : VideoEnv :=
  { attempt1 := { apiKey := "K", submit := .error notFoundStatusErr, polls := [] },
    attempt2 := { apiKey := "K", submit := .ok ⟨true, none⟩, polls := [] },
    hasOpenSelectKey := false,
    openSelectKey := .ok () }

/-- C3 counterexample: an error matching the explicit NOT_FOUND status signal
is classified permission-related, yet when the environment does not expose
`window.aistudio.openSelectKey` the code shows zero re-authorization prompts
and performs zero retries — not exactly one of each as the claim states. -/
theorem c3_counterexample :
    isNotFound notFoundStatusErr = true ∧
    (generateVideo "p" videoNoCapabilityEnv).prompts = 0 ∧
    (generateVideo "p" videoNoCapabilityEnv).retries = 0 ∧
    (generateVideo "p" videoNoCapabilityEnv).result = some (Except.ok none) :=
  ⟨rfl, rfl, rfl, rfl⟩

/-- C3 (amended): classification is the liberal OR of the three signal groups;
a non-permission error yields zero prompts and retries and a silent `null`;
a permission error with the re-authorization capability present yields exactly
one prompt and, when the prompt resolves, exactly one full retry, a second
failure resolving to silent `null`; a failing prompt or an absent capability
yields no retry and silent `null`. -/
theorem c3_retry_policy (p : String) (env : VideoEnv) (e : JsError)
    (h1 : runGen env.attempt1 = some (.error e)) :
    (isNotFound e = true ↔
      ((∃ m, e.message = some m ∧
          strContains m "Requested entity was not found" = true) ∨
       strContains e.serialized "Requested entity was not found" = true ∨
       e.status = some "NOT_FOUND" ∨ e.code = some 404)) ∧
    (isNotFound e = false →
      (generateVideo p env).prompts = 0 ∧ (generateVideo p env).retries = 0 ∧
      (generateVideo p env).result = some (Except.ok none)) ∧
    (isNotFound e = true → env.hasOpenSelectKey = true →
     env.openSelectKey = .ok () →
      (generateVideo p env).prompts = 1 ∧ (generateVideo p env).retries = 1 ∧
      (∀ e2, runGen env.attempt2 = some (.error e2) →
        (generateVideo p env).result = some (Except.ok none))) ∧
    (isNotFound e = true → env.hasOpenSelectKey = true →
     (∃ e2, env.openSelectKey = .error e2) →
      (generateVideo p env).prompts = 1 ∧ (generateVideo p env).retries = 0 ∧
      (generateVideo p env).result = some (Except.ok none)) ∧
    (isNotFound e = true → env.hasOpenSelectKey = false →
      (generateVideo p env).prompts = 0 ∧ (generateVideo p env).retries = 0 ∧
      (generateVideo p env).result = some (Except.ok none)) := by
  refine ⟨?_, ?_, ?_, ?_, ?_⟩
  · cases hm : e.message with
    | none => simp [isNotFound, hm, Bool.or_eq_true, beq_iff_eq, or_assoc]
    | some m => simp [isNotFound, hm, Bool.or_eq_true, beq_iff_eq, or_assoc]
  · intro hnf
    simp [generateVideo, h1, hnf]
  · intro hnf hcap hok
    cases h2 : runGen env.attempt2 with
    | none =>
      refine ⟨by simp [generateVideo, h1, hnf, hcap, hok, h2],
              by simp [generateVideo, h1, hnf, hcap, hok, h2], ?_⟩
      intro e2 h3
      exact absurd h3 (by simp)
    | some r2 =>
      cases r2 with
      | ok v =>
        refine ⟨by simp [generateVideo, h1, hnf, hcap, hok, h2],
                by simp [generateVideo, h1, hnf, hcap, hok, h2], ?_⟩
        intro e2 h3
        exact absurd h3 (by simp)
      | error e2 =>
        exact ⟨by simp [generateVideo, h1, hnf, hcap, hok, h2],
               by simp [generateVideo, h1, hnf, hcap, hok, h2],
               fun e3 h3 => by simp [generateVideo, h1, hnf, hcap, hok, h2]⟩
  · rintro hnf hcap ⟨e2, hk⟩
    refine ⟨by simp [generateVideo, h1, hnf, hcap, hk],
            by simp [generateVideo, h1, hnf, hcap, hk],
            by simp [generateVideo, h1, hnf, hcap, hk]⟩
  · intro hnf hncap
    refine ⟨by simp [generateVideo, h1, hnf, hncap],
            by simp [generateVideo, h1, hnf, hncap],
            by simp [generateVideo, h1, hnf, hncap]⟩

/-- C3 witness: in the concrete permission-failure environment with the
capability present, exactly one prompt and one retry occur and the second
failure resolves to silent `null`. -/
theorem c3_retry_policy_witness :
    (generateVideo "p" videoRetryEnv).prompts = 1 ∧
    (generateVideo "p" videoRetryEnv).retries = 1 ∧
    (generateVideo "p" videoRetryEnv).result = some (Except.ok none) := by
  obtain ⟨-, -, h3, -, -⟩ := c3_retry_policy "p" videoRetryEnv notFoundStatusErr rfl
  obtain ⟨p1, r1, himp⟩ := h3 rfl rfl rfl
  exact ⟨p1, r1, himp (throwErr "still failing") rfl⟩

/-- Session 2's asset record after being patched by session 1's stale video
completion: session 1's video URI written into session 2's assets. -/
def staleTwoAssets : GeneratedAssets :=
  { sessionTwoAssets with videoUri := some "vids.example/v1?id=1&key=KEY" }

/-- C5: the claim says a stale video completion never writes into a later
Session's assets, because the callback checks phase and session identity.
The source callback has no such guard — it only skips when the current assets
are `null`. Concrete failing trace: session 1 reaches `SHOWCASE` and spawns
its video task; the user resets and runs session 2, which publishes fresh
assets with no video reference; session 1's task then completes and patches
session 1's stale video URI into session 2's published assets. -/
theorem c5_stale_video_patches_new_session :
    session1.state = AppState.SHOWCASE ∧
    (reset session1).assets = none ∧
    session2.state = AppState.SHOWCASE ∧
    session2.assets = some sessionTwoAssets ∧
    sessionTwoAssets.videoUri = none ∧
    deliverTask task1 session2 =
      { session2 with assets := some staleTwoAssets } := by
  refine ⟨rfl, rfl, rfl, rfl, rfl, ?_⟩
  decide

/-- C6 counterexample: after a concrete failed run the status message reads
"Generating multimodal experience..."; `reset` does not restore it, so the
resulting Session differs from the initial `Idle` state. -/
theorem c6_reset_counterexample :
    failedSession.state = AppState.ERROR ∧
    reset failedSession ≠ initialSession ∧
    (reset failedSession).statusMessage = "Generating multimodal experience..." ∧
    initialSession.statusMessage = "Ready to vibe" := by
  refine ⟨rfl, ?_, rfl, rfl⟩
  decide

/-- C6 (amended): `reset` from `ERROR` or `SHOWCASE` restores the phase,
personality, assets and error to their initial values; the status message is
left unchanged (not restored to its initial value). -/
theorem c6_reset_amended (s : Session)
    (h : s.state = AppState.ERROR ∨ s.state = AppState.SHOWCASE) :
    (reset s).state = initialSession.state ∧
    (reset s).personality = initialSession.personality ∧
    (reset s).assets = initialSession.assets ∧
    (reset s).error = initialSession.error ∧
    (reset s).statusMessage = s.statusMessage := by
  simp [reset, initialSession]

/-- C6 witness: resetting the concrete failed session restores everything but
the status message. -/
theorem c6_reset_amended_witness :
    (reset failedSession).state = initialSession.state ∧
    (reset failedSession).personality = initialSession.personality ∧
    (reset failedSession).assets = initialSession.assets ∧
    (reset failedSession).error = initialSession.error ∧
    (reset failedSession).statusMessage = failedSession.statusMessage :=
  c6_reset_amended failedSession (Or.inl rfl)

/-- C7: when the pre-flight check or the microphone request fails, the
session's phase stays `IDLE` and the error message is surfaced. -/
theorem c7_idle_on_start_failure (s : Session) (env : StartEnv)
    (hIdle : s.state = AppState.IDLE)
    (hFail : isErr (checkApiKey env).1 = true ∨ isErr env.getUserMedia = true) :
    (startRecording s env).1.state = AppState.IDLE ∧
    (startRecording s env).1.error = some micErrorMessage := by
  cases hc : checkApiKey env with
  | mk r evs =>
    cases r with
    | error e => simp [startRecording, hc, hIdle]
    | ok u =>
      cases hm : env.getUserMedia with
      | error e => simp [startRecording, hc, hm, hIdle]
      | ok u2 =>
        rw [hc] at hFail
        rcases hFail with h | h
        · simp [isErr] at h
        · rw [hm] at h
          simp [isErr] at h

/-- A start environment whose microphone request is denied. -/
def startDeniedEnv : StartEnv :=
  { hasHasSelectedApiKey := true, hasSelectedApiKey := .ok true,
    hasOpenSelectKey := true, openSelectKey := .ok (),
    getUserMedia := .error (throwErr "Permission denied") }

/-- C7 witness: the concrete denied-microphone start stays `IDLE` with the
inline error message. -/
theorem c7_idle_on_start_failure_witness :
    (startRecording initialSession startDeniedEnv).1.state = AppState.IDLE ∧
    (startRecording initialSession startDeniedEnv).1.error = some micErrorMessage :=
  c7_idle_on_start_failure initialSession startDeniedEnv rfl (Or.inr rfl)

/-- C8: the event trace of every `startRecording` run is the `checkApiKey`
trace followed by a tail containing no authorization events; the microphone is
never requested during `checkApiKey`; when the check rejects, the microphone
is never requested at all; and when no key is selected and the prompt
capability exists, the interactive selection prompt belongs to the completed
`checkApiKey` trace — so the authorization check, including the prompt,
completes strictly before microphone access is requested. -/
theorem c8_auth_before_mic (s : Session) (env : StartEnv) :
    (∃ rest, (startRecording s env).2 = (checkApiKey env).2 ++ rest ∧
       Event.checkHasKey ∉ rest ∧ Event.promptSelectKey ∉ rest) ∧
    Event.requestMic ∉ (checkApiKey env).2 ∧
    (isErr (checkApiKey env).1 = true →
      Event.requestMic ∉ (startRecording s env).2) ∧
    (env.hasHasSelectedApiKey = true → env.hasSelectedApiKey = .ok false →
     env.hasOpenSelectKey = true →
      Event.promptSelectKey ∈ (checkApiKey env).2) := by
  have hmem : Event.requestMic ∉ (checkApiKey env).2 := by
    unfold checkApiKey
    cases h1 : env.hasHasSelectedApiKey with
    | false => simp [h1]
    | true =>
      simp only [h1]
      cases h2 : env.hasSelectedApiKey with
      | error e => simp
      | ok hasKey =>
        cases h3 : (!hasKey && env.hasOpenSelectKey) with
        | false => simp [h3]
        | true =>
          simp only [h3, if_true]
          cases h4 : env.openSelectKey with
          | error e => simp
          | ok u => simp
  refine ⟨?_, hmem, ?_, ?_⟩
  · cases hc : checkApiKey env with
    | mk r evs =>
      cases r with
      | error e =>
        exact ⟨[], by simp [startRecording, hc], by simp, by simp⟩
      | ok u =>
        cases hm : env.getUserMedia with
        | error e =>
          exact ⟨[.requestMic], by simp [startRecording, hc, hm], by simp, by simp⟩
        | ok u2 =>
          exact ⟨[.requestMic, .recorderStart], by simp [startRecording, hc, hm],
                 by simp, by simp⟩
  · intro hfail
    cases hc : checkApiKey env with
    | mk r evs =>
      cases r with
      | error e =>
        have hm2 := hmem
        rw [hc] at hm2
        simpa [startRecording, hc] using hm2
      | ok u =>
        rw [hc] at hfail
        simp [isErr] at hfail
  · intro h1 h2 h3
    unfold checkApiKey
    simp only [h1, h2, h3]
    cases h4 : env.openSelectKey with
    | error e => simp
    | ok u => simp

/-- A start environment that requires and resolves the interactive key
selection prompt. -/
def startPromptEnv : StartEnv :=
  { hasHasSelectedApiKey := true, hasSelectedApiKey := .ok false,
    hasOpenSelectKey := true, openSelectKey := .ok (),
    getUserMedia := .ok () }

/-- C8 witness: in the concrete prompt-requiring environment the selection
prompt is part of the completed check trace, which contains no microphone
request. -/
theorem c8_auth_before_mic_witness :
    Event.promptSelectKey ∈ (checkApiKey startPromptEnv).2 ∧
    Event.requestMic ∉ (checkApiKey startPromptEnv).2 :=
  ⟨(c8_auth_before_mic initialSession startPromptEnv).2.2.2 rfl rfl rfl,
   (c8_auth_before_mic initialSession startPromptEnv).2.1⟩

end MetaVibe
